import Mathlib

/-!
Verification of the recursiveForecasts transformation / forecasting engine.

Shallow embedding conventions:
* Calendar months are integers (months since an arbitrary epoch); subtracting a
  `pd.DateOffset(months=k)` from a first-of-month timestamp is exactly integer
  subtraction of `k`.
* A pandas `DataFrame` is a `DFrame`: a list of column labels, a list of index
  labels (months), and a total valuation `String → Int → Option ℝ` where `none`
  models a NaN cell (missing value).  Reads of absent labels are modelled by the
  explicit index/column checks that the Python code performs (pandas raises
  `KeyError` there).
* Python's float NaN is `none`; `np.log` on a nonpositive argument is modelled
  as producing a missing value (`nlog`), and NaN propagates through arithmetic
  (`osub`, `oadd`).
* Python exceptions are the `Err` error type of an `Except` result.
-/

/-- Errors raised by the Python code (`ValueError`, `KeyError`, `IndexError`,
`AttributeError`, and a failure escaping the diagnostics collaborator). -/
inductive Err where
  | unknownColumn
  | invalidInput
  | missingLag
  | missingBase
  | keyError
  | indexError
  | attrError
  | diagError
deriving DecidableEq

/-- Embedding of `src/variable_spec.py`: the `VariableSpec` dataclass. -/
structure VariableSpec where
  name : String
  diff_order : Nat
  log_transform : Bool
  lag_order : Nat
deriving DecidableEq

/-- A pandas DataFrame keyed by month: column labels, index labels, cell values
(`none` is a NaN cell). -/
structure DFrame where
  cols : List String
  index : List Int
  val : String → Int → Option ℝ

/-- Embedding of `np.log` on floats: a nonpositive argument yields a missing
value (NaN in the float semantics). -/
noncomputable def nlog (x : ℝ) : Option ℝ := if 0 < x then some (Real.log x) else none

/-- Apply the optional log transform to a (possibly missing) value, as in
`transform_value` steps 4 and the diff branch. -/
noncomputable def optLog (b : Bool) (v : Option ℝ) : Option ℝ := if b then v.bind nlog else v

/-- Apply the optional `np.exp` that undoes a log transform
(`reverse_transform_value` step 5). -/
noncomputable def postExp (b : Bool) (v : Option ℝ) : Option ℝ := if b then v.map Real.exp else v

/-- NaN-propagating subtraction. -/
def osub : Option ℝ → Option ℝ → Option ℝ
  | some a, some b => some (a - b)
  | _, _ => none

/-- NaN-propagating addition. -/
def oadd : Option ℝ → Option ℝ → Option ℝ
  | some a, some b => some (a + b)
  | _, _ => none

/-- Embedding of `transform_value` (src/variable_transformer.py, lines 4-62):
column check, lag shift (absent shifted month gives NaN), value fetch
(`.loc`, raising on an absent label), optional log, optional differencing
(absent look-back month gives NaN). -/
noncomputable def transform_value (vs : VariableSpec) (d : Int) (df : DFrame) :
    Except Err (Option ℝ) :=
  if vs.name ∈ df.cols then
    let cd := if 0 < vs.lag_order then d - (vs.lag_order : Int) else d
    if 0 < vs.lag_order ∧ cd ∉ df.index then .ok none
    else if cd ∈ df.index then
      let cv := optLog vs.log_transform (df.val vs.name cd)
      if 0 < vs.diff_order then
        if cd - (vs.diff_order : Int) ∈ df.index then
          .ok (osub cv (optLog vs.log_transform (df.val vs.name (cd - (vs.diff_order : Int)))))
        else .ok none
      else .ok cv
    else .error .keyError
  else .error .unknownColumn

/-- Embedding of `reverse_transform_value` (src/variable_transformer.py, lines
65-133): column check first, then the NaN check on the supplied transformed
value, then the lag shift (absent shifted month raises), then undo differencing
(absent look-back month raises), then undo log. -/
noncomputable def reverse_transform_value (vs : VariableSpec) (d : Int) (tv : Option ℝ)
    (df : DFrame) : Except Err (Option ℝ) :=
  if vs.name ∈ df.cols then
    if tv.isSome then
      let cd := if 0 < vs.lag_order then d - (vs.lag_order : Int) else d
      if 0 < vs.lag_order ∧ cd ∉ df.index then .error .missingLag
      else if 0 < vs.diff_order then
        if cd - (vs.diff_order : Int) ∈ df.index then
          .ok (postExp vs.log_transform
            (oadd tv (optLog vs.log_transform (df.val vs.name (cd - (vs.diff_order : Int))))))
        else .error .missingBase
      else .ok (postExp vs.log_transform tv)
    else .error .invalidInput
  else .error .unknownColumn

/-- Embedding of `VariableSpec.get_transformed_column_name`
(src/variable_spec.py, lines 16-32). -/
def VariableSpec.get_transformed_column_name (s : VariableSpec) : String :=
  let n1 := if s.log_transform then "log(" ++ s.name ++ ")" else s.name
  let n2 := if 0 < s.diff_order then n1 ++ "(d" ++ toString s.diff_order ++ ")" else n1
  if 0 < s.lag_order then n2 ++ "(-" ++ toString s.lag_order ++ ")" else n2

/-- Log-wrapping stage of the derived name, as the spec words it. -/
def logWrapName (b : Bool) (n : String) : String :=
  if b then "log(" ++ n ++ ")" else n

/-- Diff-order suffix stage of the derived name, as the spec words it. -/
def diffSuffixName (k : Nat) (n : String) : String :=
  if 0 < k then n ++ "(d" ++ toString k ++ ")" else n

/-- Lag-order suffix stage of the derived name, as the spec words it. -/
def lagSuffixName (l : Nat) (n : String) : String :=
  if 0 < l then n ++ "(-" ++ toString l ++ ")" else n

/-- Pandas whole-column assignment `df[c] = series`: creates or overwrites the
column `c`; the assigned series is defined on the index rows. -/
noncomputable def setCol (df : DFrame) (c : String) (f : Int → Option ℝ) : DFrame where
  cols := if c ∈ df.cols then df.cols else df.cols ++ [c]
  index := df.index
  val := fun c' d' => if c' = c then (if d' ∈ df.index then f d' else none) else df.val c' d'

/-- Pandas column selection `df[cs]`. -/
noncomputable def selectCols (df : DFrame) (cs : List String) : DFrame where
  cols := cs
  index := df.index
  val := fun c d => if c ∈ cs ∧ d ∈ df.index then df.val c d else none

/-- Pandas `Series.shift(k)` over a DataFrame index: the value `k` rows earlier
by position (`none` for the first `k` rows). -/
noncomputable def posShift (idx : List Int) (f : Int → Option ℝ) (k : Nat) :
    Int → Option ℝ :=
  fun d => match idx.findIdx? (fun x => x == d) with
    | none => none
    | some i =>
      if k ≤ i then (match idx[i - k]? with | some d' => f d' | none => none)
      else none

/-- Pandas `Series.diff(k)` over a DataFrame index: the value minus the value
`k` rows earlier by position (`none` for the first `k` rows). -/
noncomputable def posDiff (idx : List Int) (f : Int → Option ℝ) (k : Nat) :
    Int → Option ℝ :=
  fun d => match idx.findIdx? (fun x => x == d) with
    | none => none
    | some i =>
      if k ≤ i then (match idx[i - k]? with | some d' => osub (f d) (f d') | none => none)
      else none

/-- Embedding of `transform_column` (src/variable_transformer.py, lines
136-209): copy the frame, coerce the raw column to numeric (the identity in the
real-valued embedding; reading an absent column raises `KeyError`), then apply
the optional log, diff and lag stages in that order, each writing a new column,
and finally select the original columns plus the derived column — unless the
derived name is already an original column, in which case only the original
columns are selected (duplicate detection by derived-name equality). -/
noncomputable def transform_column (df : DFrame) (col_name : String)
    (diff_order : Nat) (take_log : Bool) (lag_order : Nat) :
    Except Err (DFrame × String) :=
  if col_name ∈ df.cols then
    let t0 := setCol df col_name (fun d => df.val col_name d)
    let oc := t0.cols
    let p1 : DFrame × String :=
      if take_log then
        (setCol t0 ("log(" ++ col_name ++ ")") (fun d => (t0.val col_name d).bind nlog),
         "log(" ++ col_name ++ ")")
      else (t0, col_name)
    let p2 : DFrame × String :=
      if 0 < diff_order then
        (setCol p1.1 (p1.2 ++ "(d" ++ toString diff_order ++ ")")
           (posDiff p1.1.index (p1.1.val p1.2) diff_order),
         p1.2 ++ "(d" ++ toString diff_order ++ ")")
      else p1
    let p3 : DFrame × String :=
      if 0 < lag_order then
        (setCol p2.1 (p2.2 ++ "(-" ++ toString lag_order ++ ")")
           (posShift p2.1.index (p2.1.val p2.2) lag_order),
         p2.2 ++ "(-" ++ toString lag_order ++ ")")
      else p2
    if p3.2 ∈ oc then .ok (selectCols p3.1 oc, p3.2)
    else .ok (selectCols p3.1 (oc ++ [p3.2]), p3.2)
  else .error .keyError

/-- The names of the columns that `transform_column` writes beyond the initial
numeric re-write of the raw column itself (log stage, diff stage, lag stage). -/
def tcNewNames (c : String) (k : Nat) (b : Bool) (l : Nat) : List String :=
  let n1 := if b then "log(" ++ c ++ ")" else c
  let n2 := if 0 < k then n1 ++ "(d" ++ toString k ++ ")" else n1
  let n3 := if 0 < l then n2 ++ "(-" ++ toString l ++ ")" else n2
  (if b then [n1] else []) ++ (if 0 < k then [n2] else []) ++ (if 0 < l then [n3] else [])

/-- The opaque fitted-estimator collaborator: a row predictor (a linear
combination in statsmodels, treated as external per the spec) and the
residuals used by the diagnostics call. -/
structure Model where
  predictRow : List (Option ℝ) → Option ℝ
  resid : List ℝ

/-- Embedding of the `LinearPredictor` instance state
(src/linear_predictor.py, `__init__`). -/
structure LinearPredictor where
  df : DFrame
  exogenous_colnames : List String := []
  endogenous_colname : Option String := none
  last_month : Option Int := none
  first_month : Option Int := none
  estimation_window : List Int := []
  endogenous_specification : Option VariableSpec := none
  exogenous_specification : List VariableSpec := []
  include_constant : Bool := false
  fitted_model : Option Model := none

/-- `LinearPredictor(df)`: the constructor copies the frame (value semantics)
and leaves every other attribute at its initial value. -/
noncomputable def initLP (df : DFrame) : LinearPredictor := { df := df }

/-- `self.df.insert(0, 'const', 1.0)`: prepend a constant 1.0 column. -/
noncomputable def insertConst (df : DFrame) : DFrame where
  cols := "const" :: df.cols
  index := df.index
  val := fun c d => if c = "const" then (if d ∈ df.index then some 1 else none) else df.val c d

/-- The loop of `_construct_exogenous_columns`: derive each exogenous spec's
column via `transform_column` and record its name, mutating the predictor
state; a raised error keeps the state reached so far. -/
noncomputable def constructExog :
    LinearPredictor → List VariableSpec → LinearPredictor × Option Err
  | s, [] => (s, none)
  | s, vs :: rest =>
    match transform_column s.df vs.name vs.diff_order vs.log_transform vs.lag_order with
    | .error e => (s, some e)
    | .ok p =>
      constructExog
        { s with df := p.1, exogenous_colnames := s.exogenous_colnames ++ [p.2] } rest

/-- `pd.date_range(start=a, end=b, freq='MS')` on first-of-month stamps:
every month from `a` to `b` inclusive (empty when `b < a`). -/
def monthRange (a b : Int) : List Int :=
  (List.range (b + 1 - a).toNat).map (fun i => a + (i : Int))

/-- Boolean index-membership test of a DataFrame. -/
def df_has_idx (df : DFrame) (d : Int) : Bool := df.index.contains d

/-- Boolean column-membership test of a DataFrame. -/
def df_has_col (df : DFrame) (c : String) : Bool := df.cols.contains c

/-- Tail of `LinearPredictor.fit` after the derived columns exist: resolve
`first_month` (first index row where every regressor column and the target
column are simultaneously present), build the estimation window, call the
opaque estimator over the window (`.loc` raising on absent labels), store the
fitted model, and finally call the diagnostics collaborator, whose failure
propagates. -/
noncomputable def fitFinish (est : List (Option ℝ) → List (List (Option ℝ)) → Model)
    (diag : String → List Int → List ℝ → Except Unit Unit)
    (s3 : LinearPredictor) (ename endoName : String)
    (last_month : Int) (first_month : Option Int) :
    LinearPredictor × Option Err :=
  let s4 := { s3 with last_month := some last_month, first_month := first_month }
  match (match first_month with
         | some f => some f
         | none =>
           s4.df.index.find? (fun d =>
             (s4.exogenous_colnames ++ [ename]).all
               (fun cc => (s4.df.val cc d).isSome))) with
  | none => (s4, some .indexError)
  | some f =>
    let s5 := { s4 with first_month := some f,
                        estimation_window := monthRange f last_month }
    let window := monthRange f last_month
    if window.all (fun d => df_has_idx s5.df d)
        && (s5.exogenous_colnames ++ [ename]).all (fun cc => df_has_col s5.df cc) then
      let m := est (window.map fun d => s5.df.val ename d)
        (window.map fun d => s5.exogenous_colnames.map fun cc => s5.df.val cc d)
      let s6 := { s5 with fitted_model := some m }
      match diag endoName window m.resid with
      | .error _ => (s6, some .diagError)
      | .ok _ => (s6, none)
    else (s5, some .keyError)

/-- Body of `LinearPredictor.fit` after the spec arguments have been
deep-copied onto the state: derive the endogenous column, optionally insert the
constant, derive the exogenous columns, then finish with `fitFinish`. -/
noncomputable def fitBody (est : List (Option ℝ) → List (List (Option ℝ)) → Model)
    (diag : String → List Int → List ℝ → Except Unit Unit)
    (s0 : LinearPredictor) (last_month : Int) (first_month : Option Int) :
    LinearPredictor × Option Err :=
  match s0.endogenous_specification with
  | none => (s0, some .attrError)
  | some endo =>
    match transform_column s0.df endo.name endo.diff_order endo.log_transform
        endo.lag_order with
    | .error e => (s0, some e)
    | .ok p =>
      let s1 := { s0 with df := p.1, endogenous_colname := some p.2 }
      let s2 :=
        if s1.include_constant then
          { s1 with exogenous_colnames := "const" :: s1.exogenous_colnames,
                    df := insertConst s1.df }
        else s1
      match constructExog s2 s2.exogenous_specification with
      | (s3, some e) => (s3, some e)
      | (s3, none) => fitFinish est diag s3 p.2 endo.name last_month first_month

/-- Embedding of `LinearPredictor.fit` (src/linear_predictor.py, lines 78-128):
the endogenous and exogenous specifications are deep-copied onto the state
(value snapshot) before any derivation.  The estimator and the diagnostics
collaborator are the external parameters `est` and `diag`. -/
noncomputable def LinearPredictor.fit (lp : LinearPredictor)
    (est : List (Option ℝ) → List (List (Option ℝ)) → Model)
    (diag : String → List Int → List ℝ → Except Unit Unit)
    (endo : VariableSpec) (exog : List VariableSpec)
    (last_month : Int) (first_month : Option Int) (include_constant : Bool) :
    LinearPredictor × Option Err :=
  fitBody est diag
    { lp with endogenous_specification := some endo,
              exogenous_specification := exog,
              include_constant := include_constant }
    last_month first_month

/-- Pandas scalar assignment `df.loc[d, c] = v`: overwrites the cell when the
labels exist, otherwise enlarges the frame (a new row's other cells and a new
column's other cells are NaN). -/
noncomputable def setVal (df : DFrame) (c : String) (d : Int) (v : Option ℝ) : DFrame where
  cols := if c ∈ df.cols then df.cols else df.cols ++ [c]
  index := if d ∈ df.index then df.index else df.index ++ [d]
  val := fun c' d' =>
    if c' = c ∧ d' = d then v
    else if c' = c ∧ c ∉ df.cols then none
    else if d' = d ∧ d ∉ df.index then none
    else df.val c' d'

/-- The feedback step of the forecast loop (src/linear_predictor.py, lines
173-185): for every exogenous spec whose raw name equals the target's raw name,
recompute `transform_value` at the current month on the updated frame and store
the result at the month shifted forward by that spec's `lag_order`.  The middle
component is a ghost trace of the writes `(target month, column, value)`. -/
noncomputable def feedbackStep (endoName : String) :
    DFrame → Int → List VariableSpec → DFrame × List (Int × String × Option ℝ) × Option Err
  | df, _, [] => (df, [], none)
  | df, idxM, vs :: rest =>
    if vs.name = endoName then
      match transform_value vs idxM df with
      | .error e => (df, [], some e)
      | .ok tv =>
        let tgt := idxM + (vs.lag_order : Int)
        let df' := setVal df vs.get_transformed_column_name tgt tv
        let r := feedbackStep endoName df' idxM rest
        (r.1, (tgt, vs.get_transformed_column_name, tv) :: r.2.1, r.2.2)
    else feedbackStep endoName df idxM rest

/-- The chronological forecast loop of `LinearPredictor.predict`
(src/linear_predictor.py, lines 157-187): read the regressor row (`.loc`
raises on absent labels), predict, record the transformed prediction in the
derived target column, reverse-transform it to a level value recorded in the
raw target column, then run the feedback step. -/
noncomputable def forecastLoop (m : Model) (colnames : List String) (ename : String)
    (endo : VariableSpec) (exog : List VariableSpec) :
    DFrame → List Int → DFrame × List (Int × String × Option ℝ) × Option Err
  | df, [] => (df, [], none)
  | df, idxM :: rest =>
    if idxM ∈ df.index ∧ ∀ cc ∈ colnames, cc ∈ df.cols then
      let row := colnames.map fun cc => df.val cc idxM
      let prediction := m.predictRow row
      let df1 := setVal df ename idxM prediction
      match reverse_transform_value endo idxM prediction df1 with
      | .error e => (df1, [], some e)
      | .ok level =>
        let df2 := setVal df1 endo.name idxM level
        match feedbackStep endo.name df2 idxM exog with
        | (df3, ws, some e) => (df3, ws, some e)
        | (df3, ws, none) =>
          let r := forecastLoop m colnames ename endo exog df3 rest
          (r.1, ws ++ r.2.1, r.2.2)
    else (df, [], some .keyError)

/-- Result of a `predict` call: the mutated predictor state, the ghost trace of
feedback writes, and the returned level-scale series (or the raised error). -/
structure PredictOut where
  lp : LinearPredictor
  fbWrites : List (Int × String × Option ℝ)
  result : Except Err (List (Int × Option ℝ))

/-- Embedding of `LinearPredictor.predict` (src/linear_predictor.py, lines
134-189): resolve the forecast window (`start` defaults to the month after
`last_month`; an explicit `end` gives an inclusive range, otherwise
`steps_ahead` consecutive months), run the forecast loop, and return the raw
target column over the window.  No window validation is performed (the source
holds only a TODO placeholder at lines 153-154). -/
noncomputable def LinearPredictor.predict (lp : LinearPredictor)
    (start : Option Int) (endM : Option Int) (steps_ahead : Nat) : PredictOut :=
  match (match start, lp.last_month with
         | some s, _ => Except.ok s
         | none, some lm => Except.ok (lm + 1)
         | none, none => Except.error Err.attrError) with
  | .error e => ⟨lp, [], .error e⟩
  | .ok st =>
    let window := match endM with
      | some e => monthRange st e
      | none => (List.range steps_ahead).map fun i => st + (i : Int)
    match lp.fitted_model, lp.endogenous_colname, lp.endogenous_specification with
    | some m, some ename, some endo =>
      let r := forecastLoop m lp.exogenous_colnames ename endo
        lp.exogenous_specification lp.df window
      match r.2.2 with
      | some e => ⟨{ lp with df := r.1 }, r.2.1, .error e⟩
      | none => ⟨{ lp with df := r.1 }, r.2.1,
                 .ok (window.map fun d => (d, r.1.val endo.name d))⟩
    | _, _, _ => ⟨lp, [], .error .attrError⟩

/-- A heap of caller-owned `VariableSpec` objects, addressed by reference.
Python-side mutation of a caller's spec object is an update of this store. -/
def updateStore (st : Nat → VariableSpec) (r : Nat) (s : VariableSpec) :
    Nat → VariableSpec :=
  fun i => if i = r then s else st i

/-- `fit` called on the caller's spec objects: the specs are dereferenced from
the store and (per the `deepcopy` in the source) their values are snapshotted
into the predictor. -/
noncomputable def fitViaStore (est : List (Option ℝ) → List (List (Option ℝ)) → Model)
    (diag : String → List Int → List ℝ → Except Unit Unit)
    (lp : LinearPredictor) (store : Nat → VariableSpec) (er : Nat) (xrs : List Nat)
    (lm : Int) (fm : Option Int) (ic : Bool) : LinearPredictor × Option Err :=
  lp.fit est diag (store er) (xrs.map store) lm fm ic

/-- Run `fit` then `predict`, with no mutation in between. -/
noncomputable def runNoMutation (est : List (Option ℝ) → List (List (Option ℝ)) → Model)
    (diag : String → List Int → List ℝ → Except Unit Unit)
    (lp : LinearPredictor) (store : Nat → VariableSpec) (er : Nat) (xrs : List Nat)
    (lm : Int) (fm : Option Int) (ic : Bool)
    (a b : Option Int) (c : Nat) : PredictOut :=
  ((fitViaStore est diag lp store er xrs lm fm ic).1).predict a b c

/-- Run `fit`, let the caller mutate one of their spec objects, then `predict`. -/
noncomputable def runWithMutation (est : List (Option ℝ) → List (List (Option ℝ)) → Model)
    (diag : String → List Int → List ℝ → Except Unit Unit)
    (lp : LinearPredictor) (store : Nat → VariableSpec) (er : Nat) (xrs : List Nat)
    (lm : Int) (fm : Option Int) (ic : Bool) (r : Nat) (s' : VariableSpec)
    (a b : Option Int) (c : Nat) : PredictOut :=
  let fitted := (fitViaStore est diag lp store er xrs lm fm ic).1
  let _mutatedStore := updateStore store r s'
  fitted.predict a b c

/-- Raw target series of the end-to-end scenario: observed values at months
0..6, NaN at the future months 7..9 that are already materialized in the frame. -/
noncomputable def yval : Int → Option ℝ := fun d =>
  if d = 0 then some 10 else if d = 1 then some 11 else if d = 2 then some 12
  else if d = 3 then some 13 else if d = 4 then some 14 else if d = 5 then some 15
  else if d = 6 then some 16 else none

/-- Input frame of the end-to-end scenario: one raw column `y` over months
0..9; observations end at month 6 (= `last_month`). -/
noncomputable def baseDF : DFrame where
  cols := ["y"]
  index := monthRange 0 9
  val := fun c d => if c = "y" then yval d else none

/-- Concrete opaque estimator for the one-regressor scenario: the fitted model
passes the single regressor value through (any coefficients would do for the
population/missingness claims). -/
def estC : List (Option ℝ) → List (List (Option ℝ)) → Model := fun _ _ =>
  { predictRow := fun row => match row with | [o] => o | _ => none, resid := [] }

/-- A diagnostics collaborator that succeeds. -/
def diagOk : String → List Int → List ℝ → Except Unit Unit := fun _ _ _ => .ok ()

/-- A diagnostics collaborator that fails (e.g. `fig.savefig` raising on the
hard-coded path of `_save_residual_plot`). -/
def diagFail : String → List Int → List ℝ → Except Unit Unit := fun _ _ _ => .error ()

/-- Endogenous spec of the scenario: the raw target itself. -/
def especY : VariableSpec := ⟨"y", 0, false, 0⟩

/-- Exogenous spec of the scenario: the lag-1 of the target. -/
def xspecY : VariableSpec := ⟨"y", 0, false, 1⟩

/-- The fitted predictor of the end-to-end scenario (`last_month` = 6,
`first_month` = 1, no constant). -/
noncomputable def lpFitC : LinearPredictor :=
  ((initLP baseDF).fit estC diagOk especY [xspecY] 6 (some 1) false).1

/-- Forecasting 3 months ahead from the fitted scenario predictor. -/
noncomputable def predC : PredictOut := lpFitC.predict none none 3

/-- `predict` with `start` equal to `last_month` (claim C3's first rejected
input). -/
noncomputable def predC3a : PredictOut := lpFitC.predict (some 6) none 3

/-- `predict` with `end` before `start` (claim C3's second rejected input). -/
noncomputable def predC3b : PredictOut := lpFitC.predict (some 7) (some 6) 12

/-- The scenario `fit` call with the failing diagnostics collaborator. -/
noncomputable def fitC8 : LinearPredictor × Option Err :=
  (initLP baseDF).fit estC diagFail especY [xspecY] 6 (some 1) false

/-- Triangular-number raw values (1, 3, 6, 10, ...) as integers. -/
def triVal : Int → ℤ := fun d => (d + 1) * (d + 2) / 2

/-- The triangular series `[1, 3, 6, 10, 15, 21, ...]` monthly from 2020-01
(month 0 = 2020-01), 36 observations. -/
noncomputable def triDF : DFrame where
  cols := ["value"]
  index := monthRange 0 35
  val := fun c d => if c = "value" ∧ 0 ≤ d ∧ d ≤ 35 then some ((triVal d : ℤ) : ℝ) else none

/-- Spec with `diff_order = 1`, no log, no lag. -/
def specTri : VariableSpec := ⟨"value", 1, false, 0⟩

/-- The series `[1, 2, ..., 24]` monthly from 2022-01 (month 0 = 2022-01). -/
noncomputable def seqDF : DFrame where
  cols := ["value"]
  index := monthRange 0 23
  val := fun c d => if c = "value" ∧ 0 ≤ d ∧ d ≤ 23 then some (((d + 1 : ℤ) : ℝ)) else none

/-- Spec with `lag_order = 1`, no diff, no log. -/
def specLag : VariableSpec := ⟨"value", 0, false, 1⟩

/-- A spec naming a column absent from `seqDF`. -/
def specZZ : VariableSpec := ⟨"zz", 0, false, 0⟩

/-- A small three-month frame with one raw column `v`. -/
noncomputable def dfW : DFrame where
  cols := ["v"]
  index := [0, 1, 2]
  val := fun c d => if c = "v" ∧ 0 ≤ d ∧ d ≤ 2 then some 5 else none

/-- The frame produced by one `transform_column` application on `dfW`. -/
noncomputable def dfW5a : DFrame :=
  match transform_column dfW "v" 1 false 0 with
  | .ok p => p.1
  | .error _ => dfW

/-- The frame produced by a second identical `transform_column` application. -/
noncomputable def dfW5b : DFrame :=
  match transform_column dfW5a "v" 1 false 0 with
  | .ok p => p.1
  | .error _ => dfW5a

/-- The frame produced by `transform_column` with log, diff and lag on `dfW`. -/
noncomputable def dfW10 : DFrame :=
  match transform_column dfW "v" 1 true 1 with
  | .ok p => p.1
  | .error _ => dfW

theorem setCol_cols_mem (df : DFrame) (c : String) (f : Int → Option ℝ)
    (h : c ∈ df.cols) : (setCol df c f).cols = df.cols := if_pos h

theorem setCol_val_ne (df : DFrame) (c : String) (f : Int → Option ℝ)
    (c' : String) (d : Int) (h : c' ≠ c) : (setCol df c f).val c' d = df.val c' d := by
  simp [setCol, h]

theorem t0_val (df : DFrame) (c : String) (c' : String) (d : Int) (hd : d ∈ df.index) :
    (setCol df c (fun x => df.val c x)).val c' d = df.val c' d := by
  simp only [setCol]
  split_ifs with h1
  · subst h1; rfl
  · rfl

theorem selVal_pres (X : DFrame) (cs : List String) (df : DFrame) (c' : String) (d : Int)
    (hmem : c' ∈ cs) (hidx : X.index = df.index) (hd : d ∈ df.index)
    (hX : X.val c' d = df.val c' d) : (selectCols X cs).val c' d = df.val c' d := by
  simp [selectCols, hmem, hidx, hd, hX]

theorem transform_column_characterization (df : DFrame) (c : String) (k : Nat) (b : Bool)
    (l : Nat) (hc : c ∈ df.cols) :
    ∃ df', transform_column df c k b l =
        .ok (df', (VariableSpec.mk c k b l).get_transformed_column_name) ∧
      df'.index = df.index ∧
      df'.cols = (if (VariableSpec.mk c k b l).get_transformed_column_name ∈ df.cols
                  then df.cols
                  else df.cols ++ [(VariableSpec.mk c k b l).get_transformed_column_name]) ∧
      ∀ c' d, c' ∈ df.cols → c' ∉ tcNewNames c k b l → d ∈ df.index →
        df'.val c' d = df.val c' d := by
  unfold transform_column
  rw [if_pos hc]
  cases hb : b <;> by_cases hk : 0 < k <;> by_cases hl : 0 < l <;>
    simp only [VariableSpec.get_transformed_column_name, tcNewNames, hb, hk, hl, hc,
      if_true, if_false, ite_true, ite_false, Bool.false_eq_true, setCol_cols_mem _ _ _ hc,
      List.nil_append, List.append_nil, List.singleton_append] <;>
    first
      | exact ⟨_, rfl, rfl, rfl, fun c' d hcin hnot hd =>
          selVal_pres _ _ _ _ _ (by simp [hcin]) rfl hd (t0_val _ _ _ _ hd)⟩
      | (split_ifs with hm <;>
          exact ⟨_, rfl, rfl, by simp [selectCols, hm], fun c' d hcin hnot hd =>
            selVal_pres _ _ _ _ _ (by simp [hcin]) rfl hd (by
              repeat' first
                | rw [t0_val _ _ _ _ hd]
                | rw [setCol_val_ne _ _ _ _ _ (fun hEq => hnot (by simp [hEq]))])⟩)

theorem constructExog_fields : ∀ (xl : List VariableSpec) (s s' : LinearPredictor)
    (r : Option Err), constructExog s xl = (s', r) →
    s'.endogenous_specification = s.endogenous_specification ∧
    s'.exogenous_specification = s.exogenous_specification := by
  intro xl
  induction xl with
  | nil =>
    intro s s' r h
    unfold constructExog at h
    injection h with hs hr
    subst hs
    exact ⟨rfl, rfl⟩
  | cons vs rest ih =>
    intro s s' r h
    unfold constructExog at h
    split at h
    · injection h with hs hr
      subst hs
      exact ⟨rfl, rfl⟩
    · obtain ⟨u1, u2⟩ := ih _ _ _ h
      exact ⟨u1, u2⟩

theorem fitFinish_fields (est : List (Option ℝ) → List (List (Option ℝ)) → Model)
    (diag : String → List Int → List ℝ → Except Unit Unit)
    (s3 : LinearPredictor) (ename endoName : String) (lm : Int) (fm : Option Int) :
    (fitFinish est diag s3 ename endoName lm fm).1.endogenous_specification =
      s3.endogenous_specification ∧
    (fitFinish est diag s3 ename endoName lm fm).1.exogenous_specification =
      s3.exogenous_specification := by
  unfold fitFinish
  dsimp only
  repeat' split
  all_goals exact ⟨rfl, rfl⟩

theorem fitBody_fields (est : List (Option ℝ) → List (List (Option ℝ)) → Model)
    (diag : String → List Int → List ℝ → Except Unit Unit)
    (s : LinearPredictor) (lm : Int) (fm : Option Int) :
    (fitBody est diag s lm fm).1.endogenous_specification = s.endogenous_specification ∧
    (fitBody est diag s lm fm).1.exogenous_specification = s.exogenous_specification := by
  unfold fitBody
  split
  · exact ⟨rfl, rfl⟩
  · split
    · exact ⟨rfl, rfl⟩
    · dsimp only
      split
      · rename_i s3 e heq
        obtain ⟨h1, h2⟩ := constructExog_fields _ _ _ _ heq
        refine ⟨h1.trans ?_, h2.trans ?_⟩ <;> split_ifs <;> rfl
      · rename_i s3 heq
        obtain ⟨h1, h2⟩ := constructExog_fields _ _ _ _ heq
        obtain ⟨f1, f2⟩ := fitFinish_fields est diag s3 _ _ lm fm
        refine ⟨f1.trans (h1.trans ?_), f2.trans (h2.trans ?_)⟩ <;> split_ifs <;> rfl

/-- Claim C1: for every `VariableSpec` with `lag_order = 0` and every date and
series on which `transform_value` yields a non-missing value (the full chain's
intermediate look-back values are present), `reverse_transform_value` applied
to that value recovers exactly the raw series value at the date (exact in the
real-valued embedding, "within floating tolerance" in the float semantics). -/
theorem roundTrip_lag0 (vs : VariableSpec) (d : Int) (df : DFrame) (t : ℝ)
    (hlag : vs.lag_order = 0)
    (ht : transform_value vs d df = .ok (some t)) :
    reverse_transform_value vs d (some t) df = .ok (df.val vs.name d) := by
  unfold transform_value at ht
  unfold reverse_transform_value
  rw [hlag] at ht ⊢
  simp only [Nat.lt_irrefl, if_false, false_and, ite_false, Option.isSome_some, if_true,
    Nat.cast_zero] at ht ⊢
  by_cases hc : vs.name ∈ df.cols
  · rw [if_pos hc] at ht ⊢
    by_cases hd : d ∈ df.index
    · rw [if_pos hd] at ht
      by_cases hk : 0 < vs.diff_order
      · rw [if_pos hk] at ht ⊢
        by_cases hdd : d - (vs.diff_order : Int) ∈ df.index
        · rw [if_pos hdd] at ht ⊢
          have hsub := Except.ok.inj ht
          cases hb : vs.log_transform
          · simp only [hb, optLog, Bool.false_eq_true, if_false, ite_false] at hsub ⊢
            rcases hv : df.val vs.name d with _ | x <;> rw [hv] at hsub
            · simp [osub] at hsub
            · rcases hw : df.val vs.name (d - (vs.diff_order : Int)) with _ | y <;>
                rw [hw] at hsub
              · simp [osub] at hsub
              · simp only [osub, Option.some.injEq] at hsub
                simp only [oadd, postExp, Bool.false_eq_true, ite_false,
                  Option.some.injEq, Except.ok.injEq, ← hsub]
                exact sub_add_cancel x y
          · simp only [hb, optLog, if_true, ite_true] at hsub ⊢
            rcases hv : df.val vs.name d with _ | x <;> rw [hv] at hsub
            · simp [osub] at hsub
            · rcases hw : df.val vs.name (d - (vs.diff_order : Int)) with _ | y <;>
                rw [hw] at hsub
              · simp [osub, nlog] at hsub
              · by_cases hx : 0 < x
                · by_cases hy : 0 < y
                  · simp only [Option.some_bind, nlog, if_pos hx, if_pos hy, osub,
                      Option.some.injEq] at hsub
                    simp only [Option.some_bind, nlog, if_pos hy, oadd, postExp, ite_true,
                      Option.map_some, Option.some.injEq, Except.ok.injEq]
                    rw [← hsub, sub_add_cancel]
                    simp [Real.exp_log hx]
                  · simp [nlog, hy, osub] at hsub
                · simp [nlog, hx, osub] at hsub
        · rw [if_neg hdd] at ht
          exact absurd (Except.ok.inj ht) (by simp)
      · rw [if_neg hk] at ht ⊢
        have hcv := Except.ok.inj ht
        cases hb : vs.log_transform
        · simp only [hb, optLog, Bool.false_eq_true, ite_false] at hcv
          rw [hcv]
          simp [postExp]
        · simp only [hb, optLog, ite_true] at hcv
          rcases hv : df.val vs.name d with _ | x <;> rw [hv] at hcv
          · simp at hcv
          · by_cases hx : 0 < x
            · simp only [Option.some_bind, nlog, if_pos hx, Option.some.injEq] at hcv
              simp only [postExp, ite_true, Option.map_some, Option.some.injEq,
                Except.ok.injEq]
              rw [← hcv]
              simp [Real.exp_log hx]
            · simp [nlog, hx] at hcv
    · rw [if_neg hd] at ht
      exact absurd ht (by simp)
  · rw [if_neg hc] at ht
    exact absurd ht (by simp)

/-- Witness for C1: on the triangular series, differencing at month 1 gives 2,
and reversing 2 recovers the raw value 3. -/
theorem roundTrip_lag0_witness :
    reverse_transform_value specTri 1 (some 2) triDF = .ok (some 3) := by
  have h : transform_value specTri 1 triDF =
      .ok (some (((3 : ℤ) : ℝ) - ((1 : ℤ) : ℝ))) := rfl
  have h' : transform_value specTri 1 triDF = .ok (some 2) := by rw [h]; norm_num
  have h2 := roundTrip_lag0 specTri 1 triDF 2 rfl h'
  rw [h2, show triDF.val specTri.name 1 = some ((3 : ℤ) : ℝ) from rfl]
  norm_num

/-- Counterexample to C2 as stated: in the end-to-end one-regressor scenario
(regressor = lag-1 of the target, 3 forecast months 7, 8, 9), the feedback
steps write only at months 8, 9 and 10; no feedback write ever targets the
first forecast month 7, whose regressor value instead comes from fit-time
`transform_column`.  So "each of 3 forecast months has its regressor value
populated by the previous iteration's feedback step" is false for the first
month. -/
theorem feedback_misses_first_forecast_month :
    predC.fbWrites.map (fun w => w.1) = [8, 9, 10] ∧
    (∀ w ∈ predC.fbWrites, w.1 ≠ 7) ∧
    predC.result = .ok [(7, some 16), (8, some 16), (9, some 16)] :=
  ⟨rfl, by decide, rfl⟩

/-- Claim C2 as amended: in every iteration of the forecast loop, for every
exogenous spec whose raw name equals the target's raw name, the engine
recomputes `transform_value` at the current month on the just-updated frame
and stores the result in the spec's derived column at the month shifted
forward by that spec's own `lag_order`.  In the 3-month lag-1 scenario the
first forecast month's regressor value is populated at fit time; the second
and third months' values are populated by the previous iterations' feedback
writes, and no forecast month's regressor value is missing. -/
theorem feedback_step_behavior :
    (∀ (endoName : String) (df : DFrame) (idxM : Int) (vs : VariableSpec) (tv : Option ℝ),
        vs.name = endoName → transform_value vs idxM df = .ok tv →
        feedbackStep endoName df idxM [vs] =
          (setVal df vs.get_transformed_column_name (idxM + (vs.lag_order : Int)) tv,
           [(idxM + (vs.lag_order : Int), vs.get_transformed_column_name, tv)], none))
    ∧ predC.fbWrites = [(8, "y(-1)", some 16), (9, "y(-1)", some 16), (10, "y(-1)", some 16)]
    ∧ predC.result = .ok [(7, some 16), (8, some 16), (9, some 16)]
    ∧ (lpFitC.df.val "y(-1)" 7).isSome = true := by
  refine ⟨?_, rfl, rfl, rfl⟩
  intro endoName df idxM vs tv hname htv
  unfold feedbackStep
  rw [if_pos hname, htv]
  rfl

/-- Witness for C2's amended theorem: a concrete feedback step on the scenario
frame stores the lag-shifted value one month forward. -/
theorem feedback_step_behavior_witness :
    feedbackStep "y" baseDF 3 [xspecY] =
      (setVal baseDF "y(-1)" 4 (some 12), [(4, "y(-1)", some 12)], none) :=
  feedback_step_behavior.1 "y" baseDF 3 xspecY (some 12) rfl rfl

/-- Claim C3 (code bug evidence): the source performs no window validation
(only a TODO placeholder).  `predict` with `start` equal to `last_month` (= 6)
succeeds, silently overwriting the last observed month with a forecast, and
`predict` with `end` (= 6) before `start` (= 7) succeeds with an empty series;
neither raises the `InvalidWindow` error the spec requires. -/
theorem predict_accepts_invalid_window :
    predC3a.result = .ok [(6, some 15), (7, some 15), (8, some 15)] ∧
    predC3b.result = .ok [] :=
  ⟨rfl, rfl⟩

/-- Counterexample to C4 as stated: when the transformed value is missing AND
the spec's column is absent, `reverse_transform_value` raises the
unknown-column error, not the invalid-input (missing value) error — the code
checks column existence first (src/variable_transformer.py line 88) and the
NaN input second (line 92). -/
theorem reverse_checks_column_before_nan :
    reverse_transform_value specZZ 0 none seqDF = .error .unknownColumn ∧
    reverse_transform_value specZZ 0 none seqDF ≠ .error .invalidInput := by
  refine ⟨rfl, fun h => ?_⟩
  rw [show reverse_transform_value specZZ 0 none seqDF = .error .unknownColumn from rfl] at h
  simp at h

/-- Claim C4 as amended: `reverse_transform_value` validates in a fixed
deterministic order — column existence first (raising `UnknownColumn`), then
the missing transformed value (raising `InvalidInput`); when both conditions
hold, `UnknownColumn` wins. -/
theorem reverse_validation_order :
    (∀ (vs : VariableSpec) (d : Int) (tv : Option ℝ) (df : DFrame),
        vs.name ∉ df.cols → reverse_transform_value vs d tv df = .error .unknownColumn)
    ∧ ∀ (vs : VariableSpec) (d : Int) (df : DFrame),
        vs.name ∈ df.cols → reverse_transform_value vs d none df = .error .invalidInput := by
  constructor
  · intro vs d tv df h
    unfold reverse_transform_value
    rw [if_neg h]
  · intro vs d df h
    unfold reverse_transform_value
    rw [if_pos h]
    rfl

/-- Witness for C4's amended theorem at concrete inputs. -/
theorem reverse_validation_order_witness :
    reverse_transform_value specZZ 3 (some 5) seqDF = .error .unknownColumn ∧
    reverse_transform_value specLag 3 none seqDF = .error .invalidInput :=
  ⟨reverse_validation_order.1 specZZ 3 (some 5) seqDF (by decide),
   reverse_validation_order.2 specLag 3 seqDF (by decide)⟩

/-- Claim C5: `transform_column` is idempotent on the derived column — for a
dataset holding the raw column and not yet the derived column, two identical
applications return the derived name both times and yield a dataset whose
column list contains exactly one column of that name (the duplicate is
detected by derived-name membership in the original columns, not by value
comparison); the second application leaves the column list unchanged. -/
theorem transform_column_idempotent (df df₁ df₂ : DFrame) (c n₁ n₂ : String)
    (k : Nat) (b : Bool) (l : Nat)
    (hc : c ∈ df.cols)
    (hN : (VariableSpec.mk c k b l).get_transformed_column_name ∉ df.cols)
    (h1 : transform_column df c k b l = .ok (df₁, n₁))
    (h2 : transform_column df₁ c k b l = .ok (df₂, n₂)) :
    n₁ = (VariableSpec.mk c k b l).get_transformed_column_name ∧ n₂ = n₁ ∧
      df₂.cols = df₁.cols ∧ df₂.cols.count n₂ = 1 := by
  obtain ⟨e₁, he₁, _, hcols₁, _⟩ := transform_column_characterization df c k b l hc
  rw [h1] at he₁
  injection he₁ with hp
  obtain ⟨hdf₁, hn₁⟩ := Prod.mk.inj hp
  subst hdf₁
  subst hn₁
  rw [if_neg hN] at hcols₁
  have hc₁ : c ∈ df₁.cols := by rw [hcols₁]; exact List.mem_append_left _ hc
  obtain ⟨e₂, he₂, _, hcols₂, _⟩ := transform_column_characterization df₁ c k b l hc₁
  rw [h2] at he₂
  injection he₂ with hp₂
  obtain ⟨hdf₂, hn₂⟩ := Prod.mk.inj hp₂
  subst hdf₂
  subst hn₂
  have hNin : (VariableSpec.mk c k b l).get_transformed_column_name ∈ df₁.cols := by
    rw [hcols₁]
    exact List.mem_append_right _ (List.mem_singleton_self _)
  rw [if_pos hNin] at hcols₂
  refine ⟨rfl, rfl, hcols₂, ?_⟩
  rw [hcols₂, hcols₁]
  simp [List.count_append, List.count_eq_zero.mpr hN]

/-- Witness for C5 on a concrete frame: two identical diff-1 applications
leave exactly one `v(d1)` column. -/
theorem transform_column_idempotent_witness :
    dfW5b.cols = dfW5a.cols ∧ dfW5b.cols.count "v(d1)" = 1 := by
  have h := transform_column_idempotent dfW dfW5a dfW5b "v" "v(d1)" "v(d1)" 1 false 0
    (by decide) (by decide) rfl rfl
  exact ⟨h.2.2.1, h.2.2.2⟩

/-- Claim C6: `transform_value` applies the lag shift (missing shifted month
gives MISSING), then the optional log, then subtraction of the look-back value
(missing look-back month gives MISSING).  Concretely: on the triangular series
with `diff_order = 1` it returns 2 at 2020-02 (month 1) and 3 at 2020-03
(month 2); with `lag_order = 1` on `[1, ..., 24]` it returns 1 at 2022-02
(month 1) and MISSING at the first month (month 0). -/
theorem transform_value_cases :
    transform_value specTri 1 triDF = .ok (some 2) ∧
    transform_value specTri 2 triDF = .ok (some 3) ∧
    transform_value specLag 1 seqDF = .ok (some 1) ∧
    transform_value specLag 0 seqDF = .ok none := by
  refine ⟨?_, ?_, ?_, rfl⟩
  · have e : transform_value specTri 1 triDF =
        .ok (some (((3 : ℤ) : ℝ) - ((1 : ℤ) : ℝ))) := rfl
    rw [e]; norm_num
  · have e : transform_value specTri 2 triDF =
        .ok (some (((6 : ℤ) : ℝ) - ((3 : ℤ) : ℝ))) := rfl
    rw [e]; norm_num
  · have e : transform_value specLag 1 seqDF = .ok (some ((1 : ℤ) : ℝ)) := rfl
    rw [e]; norm_num

/-- Claim C7: the derived name is a pure deterministic function of exactly the
four spec fields, composed in the fixed order log-wrap, then diff-order
suffix, then lag-order suffix (the stage combinators are written from the
spec's wording); equal fields give equal names. -/
theorem derived_name_pure :
    (∀ s : VariableSpec, s.get_transformed_column_name =
      lagSuffixName s.lag_order (diffSuffixName s.diff_order (logWrapName s.log_transform s.name)))
    ∧ ∀ s₁ s₂ : VariableSpec, s₁.name = s₂.name → s₁.diff_order = s₂.diff_order →
        s₁.log_transform = s₂.log_transform → s₁.lag_order = s₂.lag_order →
        s₁.get_transformed_column_name = s₂.get_transformed_column_name := by
  refine ⟨fun s => rfl, fun s₁ s₂ h1 h2 h3 h4 => ?_⟩
  cases s₁; cases s₂
  simp only at h1 h2 h3 h4
  subst h1; subst h2; subst h3; subst h4
  rfl

/-- Witness for C7: two differently-written specs with equal fields share the
derived name. -/
theorem derived_name_pure_witness :
    (VariableSpec.mk "x" 1 true 2).get_transformed_column_name =
      (VariableSpec.mk ("x" ++ "") (0 + 1) true (1 + 1)).get_transformed_column_name :=
  derived_name_pure.2 _ _ rfl rfl rfl rfl

/-- Counterexample to C8 as stated: with a failing diagnostics collaborator,
`fit` on the end-to-end scenario returns the diagnostics error — the source
calls `_save_residual_plot` with no exception handling, so the failure is
propagated, not swallowed. -/
theorem fit_propagates_diag_error :
    fitC8.2 = some Err.diagError ∧ fitC8.2 ≠ none :=
  ⟨rfl, fun h => Option.noConfusion h⟩

/-- Claim C8 as amended: a diagnostics failure propagates out of `fit`
(aborting it), but the OLS model has already been fitted and stored on the
predictor before the diagnostics call, so the stored model remains and a
subsequent `predict` still works. -/
theorem fit_stores_model_before_diag :
    fitC8.1.fitted_model.isSome = true ∧ fitC8.2 = some Err.diagError ∧
      (fitC8.1.predict none none 1).result = .ok [(7, some 16)] :=
  ⟨rfl, rfl, rfl⟩

/-- Claim C9: `fit` deep-copies the endogenous and exogenous specs (value
snapshot from the caller's object store), so a run in which the caller mutates
their spec objects after `fit` returns yields exactly the same predictor state
and `predict` output as a run without the mutation, and the stored
specifications equal the fit-time values of the referenced objects. -/
theorem fit_deepcopy_isolation :
    ∀ (est : List (Option ℝ) → List (List (Option ℝ)) → Model)
      (diag : String → List Int → List ℝ → Except Unit Unit)
      (lp : LinearPredictor) (store : Nat → VariableSpec) (er : Nat) (xrs : List Nat)
      (lm : Int) (fm : Option Int) (ic : Bool) (r : Nat) (s' : VariableSpec)
      (a b : Option Int) (c : Nat),
      runWithMutation est diag lp store er xrs lm fm ic r s' a b c =
        runNoMutation est diag lp store er xrs lm fm ic a b c ∧
      (fitViaStore est diag lp store er xrs lm fm ic).1.endogenous_specification =
        some (store er) ∧
      (fitViaStore est diag lp store er xrs lm fm ic).1.exogenous_specification =
        xrs.map store := by
  intro est diag lp store er xrs lm fm ic r s' a b c
  refine ⟨rfl, ?_, ?_⟩
  · exact (fitBody_fields est diag
      { lp with endogenous_specification := some (store er),
                exogenous_specification := xrs.map store,
                include_constant := ic } lm fm).1
  · exact (fitBody_fields est diag
      { lp with endogenous_specification := some (store er),
                exogenous_specification := xrs.map store,
                include_constant := ic } lm fm).2

/-- Claim C10: `transform_column` is frame-preserving — the index is
unchanged, the returned columns are exactly the input's columns plus at most
the single derived column (every returned column is an original or the
derived one; intermediate stage columns are not present), and every original
column's values on the index are unchanged provided the original column is not
one of the stage names the call writes.  The input frame itself is untouched:
the source copies it (`df.copy()`) and the embedding is a pure function of
it. -/
theorem transform_column_frame (df df' : DFrame) (c n : String) (k : Nat) (b : Bool)
    (l : Nat) (hc : c ∈ df.cols) (h : transform_column df c k b l = .ok (df', n)) :
    df'.index = df.index ∧
    df'.cols = (if n ∈ df.cols then df.cols else df.cols ++ [n]) ∧
    (∀ c' ∈ df'.cols, c' ∈ df.cols ∨ c' = n) ∧
    (∀ c' d, c' ∈ df.cols → c' ∉ tcNewNames c k b l → d ∈ df.index →
      df'.val c' d = df.val c' d) := by
  obtain ⟨e, he, hidx, hcols, hval⟩ := transform_column_characterization df c k b l hc
  rw [h] at he
  injection he with hp
  obtain ⟨hdf, hn⟩ := Prod.mk.inj hp
  subst hdf
  subst hn
  refine ⟨hidx, hcols, ?_, hval⟩
  intro c' hc'
  rw [hcols] at hc'
  split_ifs at hc' with hm
  · exact Or.inl hc'
  · rcases List.mem_append.mp hc' with h' | h'
    · exact Or.inl h'
    · exact Or.inr (List.mem_singleton.mp h')

/-- Witness for C10 on a concrete frame with log, diff and lag applied. -/
theorem transform_column_frame_witness :
    dfW10.index = dfW.index ∧ dfW10.cols = dfW.cols ++ ["log(v)(d1)(-1)"] ∧
      dfW10.val "v" 0 = dfW.val "v" 0 := by
  have h := transform_column_frame dfW dfW10 "v" "log(v)(d1)(-1)" 1 true 1 (by decide) rfl
  refine ⟨h.1, ?_, ?_⟩
  · rw [h.2.1, if_neg (by decide)]
  · exact h.2.2.2 "v" 0 (by decide) (by decide) (by decide)
